import Mathlib

/-!
Shallow embedding of `libband/device.py` (the `BandDevice` class) for
verification of its documented behaviour.

Conventions of the embedding:
* Python `bytes` values are `List Nat` (each element a byte value).
* Python exceptions are the explicit error type `PyError`; a function that can
  raise returns `Except PyError _`.
* The cargo command channel (`BandSocket.cargo_read` / `cargo_write` /
  `cargo_write_with_data`, implemented in the repository's `socket.py`, which
  is outside the sources given) is modelled as an oracle: a function from a
  command and an expected byte count to a result status and the list of
  reassembled payload chunks, per the spec's Command Channel contract.
* Command identifiers (`commands.py`, also outside the given sources) are an
  opaque enumeration `Cmd`; only their identity matters to the device code.
* Multi-byte integers are little-endian, as in the source's `struct` format
  strings.
-/

namespace LibBand

/-- Python exception classes that the embedded code can raise. -/
inductive PyError where
  | valueError
  | structError
  | osError
  | indexError
  | attributeError
  | otherError
deriving DecidableEq, Repr

/-- Opaque command identifiers, standing for the constants imported from the
repository's `commands` module (their numeric values never matter to
`device.py`, only their identity). -/
inductive Cmd where
  | SERIAL_NUMBER_REQUEST
  | CARGO_NOTIFICATION
  | GET_TILES_NO_IMAGES
  | GET_TILES
  | SET_TILES
  | CORE_GET_VERSION
  | CORE_GET_API_VERSION
  | CORE_WHO_AM_I
  | CORE_SDK_CHECK
  | SET_THEME_COLOR
  | START_STRIP_SYNC_START
  | START_STRIP_SYNC_END
  | READ_ME_TILE_IMAGE
  | WRITE_ME_TILE_IMAGE_WITH_ID
  | CARGO_SYSTEM_SETTINGS_OOBE_COMPLETED_GET
  | NAVIGATE_TO_SCREEN
  | GET_ME_TILE_IMAGE_ID
deriving DecidableEq, Repr

/-- Python slice `bs[a:b]` on a byte string (for `a ≤ b`; clamps at the end of
the list exactly as Python slices do). -/
def pySlice (bs : List Nat) (a b : Nat) : List Nat :=
  (bs.take b).drop a

/-- `struct.unpack("<H", bs)`: requires exactly 2 bytes, little-endian.
(`"H"` with no byte-order prefix is native order; the code targets a
little-endian host.) -/
def unpack_u16 : List Nat → Except PyError Nat
  | [a, b] => .ok (a + 256 * b)
  | _ => .error .structError

/-- `struct.unpack("<I", bs)`: requires exactly 4 bytes, little-endian. -/
def unpack_u32 : List Nat → Except PyError Nat
  | [a, b, c, d] => .ok (a + 256 * (b + 256 * (c + 256 * d)))
  | _ => .error .structError

/-- `struct.pack("<H", n)` for `n < 2^16`. -/
def packU16 (n : Nat) : List Nat :=
  [n % 256, n / 256 % 256]

/-- `struct.pack("<I", n)` for `n < 2^32`. -/
def packU32 (n : Nat) : List Nat :=
  [n % 256, n / 256 % 256, n / 65536 % 256, n / 16777216 % 256]

/-- `uuid.UUID(bytes_le=bs)`: accepts exactly 16 bytes, raising `ValueError`
otherwise.  The UUID value is kept as its `bytes_le` representation, which the
`UUID` constructor determines injectively. -/
def uuid_bytes_le (bs : List Nat) : Except PyError (List Nat) :=
  if bs.length = 16 then .ok bs else .error .valueError

/-- Group a byte string into little-endian 16-bit code units (a trailing odd
byte is dropped). -/
def toUnits : List Nat → List Nat
  | a :: b :: rest => (a + 256 * b) :: toUnits rest
  | _ => []

/-- Modelled from the spec: `MsftBandParser.bytes_to_text` lives in the
repository's `parser` module, which is outside the given sources.  The spec
describes the text fields as fixed-width little-endian 16-bit text; decoding
takes the little-endian 16-bit code units of the field up to the first zero
(padding) unit. -/
def bytes_to_text (bs : List Nat) : List Nat :=
  (toUnits bs).takeWhile (fun u => u ≠ 0)

/-- Inverse direction used to build well-formed wire fixtures: the raw bytes of
a list of 16-bit code units, little-endian. -/
def unitsToBytes (units : List Nat) : List Nat :=
  (units.map packU16).flatten

/-- The `PushServicePacketType` `IntEnum` of `device.py`: the set of raw values
belonging to the enumeration. -/
def PushServicePacketType.isValid (n : Nat) : Bool :=
  n = 0 ∨ n = 1 ∨ n = 100 ∨ n = 101 ∨ n = 200 ∨ n = 201 ∨ n = 202 ∨
    n = 203 ∨ n = 204 ∨ n = 205 ∨ n = 206 ∨ n = 220 ∨ n = 222

/-- Calling the enum class on a raw value, `PushServicePacketType(n)`: returns
the member for a value in the enumeration and raises `ValueError` otherwise. -/
def PushServicePacketType.ofNat (n : Nat) : Except PyError Nat :=
  if PushServicePacketType.isValid n then .ok n else .error .valueError

/-- A push-capable service as registered in `BandDevice.services`: it exposes a
16-byte `guid` and a `push(guid, command, message)` method that returns either
a replacement message or a falsy value (modelled `none`). -/
structure Service (α : Type) where
  guid : List Nat
  push : List Nat → List Nat → α → Option α

/-- `BandDevice.process_push`: linear scan of `self.services.values()`; on a
`guid` match, ask the service; a truthy replacement is kept and the scan stops,
a falsy one leaves the message as is and the scan continues. -/
def process_push {α : Type} (services : List (Service α))
    (guid command : List Nat) (message : α) : α :=
  match services with
  | [] => message
  | s :: rest =>
    if s.guid = guid then
      match s.push guid command message with
      | some newMessage => newMessage
      | none => process_push rest guid command message
    else
      process_push rest guid command message

/-- The notification-shaped event dict built by
`BandDevice.process_notification_callback`. -/
structure NotificationMessage where
  opcode : Nat
  guid : List Nat
  command : List Nat
deriving DecidableEq, Repr

/-- The tile-callback-shaped event dict built by
`BandDevice.process_tile_callback`. -/
structure TileMessage where
  opcode : Nat
  guid : List Nat
  command : List Nat
  tile_name : List Nat
deriving DecidableEq, Repr

/-- `BandDevice.process_notification_callback` up to the point where the built
message is routed: opcode from bytes 2..6, GUID from bytes 6..22, command from
byte 22 on.  Short input raises (`struct.error` / `ValueError`), exactly as the
slices and constructors in the source do. -/
def process_notification_callback (services : List (Service NotificationMessage))
    (result : List Nat) : Except PyError NotificationMessage := do
  let opcode ← unpack_u32 (pySlice result 2 6)
  let guid ← uuid_bytes_le (pySlice result 6 22)
  let command := result.drop 22
  let message : NotificationMessage := ⟨opcode, guid, command⟩
  .ok (process_push services guid command message)

/-- `BandDevice.process_tile_callback` up to the point where the built message
is routed: opcode from bytes 6..10, GUID from bytes 10..26, command from bytes
26..44, tile name decoded from bytes 44..84. -/
def process_tile_callback (services : List (Service TileMessage))
    (result : List Nat) : Except PyError TileMessage := do
  let opcode ← unpack_u32 (pySlice result 6 10)
  let guid ← uuid_bytes_le (pySlice result 10 26)
  let command := pySlice result 26 44
  let tile_name := bytes_to_text (pySlice result 44 84)
  let message : TileMessage := ⟨opcode, guid, command, tile_name⟩
  .ok (process_push services guid command message)

/-- What one iteration of the push-listener loop surfaces for one inbound
frame. -/
inductive PushOutcome (σ : Type) where
  | sensor (reading : σ)
  | notification (message : NotificationMessage)
  | tile (message : TileMessage)
  | raw (bytes : List Nat)
deriving DecidableEq, Repr

/-- The body of the `while True` loop of `BandDevice.listen_pushservice`, after
`self.push.receive()` has yielded the frame `result` (the `try`/`except` in the
source guards only the `receive()` call, for `OSError`; nothing in the body
below is guarded).  `decode_sensor_reading` lives in the repository's `sensors`
module, outside the given sources, so it is a parameter.  An `.error` outcome
is an exception propagating out of the loop, terminating the listener. -/
def listen_pushservice_step {σ : Type}
    (decode_sensor_reading : List Nat → Except PyError σ)
    (notifServices : List (Service NotificationMessage))
    (tileServices : List (Service TileMessage))
    (result : List Nat) : Except PyError (PushOutcome σ) := do
  let packet_type ← unpack_u16 (pySlice result 0 2)
  let _ ← PushServicePacketType.ofNat packet_type
  if packet_type = 1 then
    let sensor ← decode_sensor_reading result
    .ok (.sensor sensor)
  else if packet_type = 100 then
    let m ← process_notification_callback notifServices result
    .ok (.notification m)
  else if packet_type = 101 then
    let m ← process_notification_callback notifServices result
    .ok (.notification m)
  else if packet_type = 204 then
    let m ← process_tile_callback tileServices result
    .ok (.tile m)
  else
    .ok (.raw result)

/-- Modelled from the spec: the hardware variants of the device
(`BandType` in the repository's `versions` module, outside the given sources).
The source refers to `BandType.Cargo`, `BandType.Envoy` and
`BandType.Unknown`; the spec speaks of "two known variants". -/
inductive BandType where
  | Cargo
  | Envoy
  | Unknown
deriving DecidableEq, Repr

/-- Modelled from the spec: one firmware version record
(`FirmwareVersion` in the repository's `versions` module, outside the given
sources).  The spec describes it as a fixed 19-byte record whose 3-character
tag field (`app_name`) distinguishes the roles; the remaining bytes are the
version fields, kept raw. -/
structure FirmwareVersion where
  app_name : List Nat
  version_fields : List Nat
deriving DecidableEq, Repr

/-- Modelled from the spec: `FirmwareVersion.deserialize` on a 19-byte record:
the 3-character tag followed by the version fields. -/
def FirmwareVersion.deserialize (bs : List Nat) : FirmwareVersion :=
  ⟨bs.take 3, bs.drop 3⟩

/-- The byte string of the tag `'1BL'`. -/
def tag1BL : List Nat := [49, 66, 76]

/-- The byte string of the tag `'2UP'`. -/
def tag2UP : List Nat := [50, 85, 80]

/-- The byte string of the tag `'App'`. -/
def tagApp : List Nat := [65, 112, 112]

/-- `DeviceVersion` (repository `versions` module, outside the given sources):
the three named slots filled in by `get_firmware_version`; a fresh
`DeviceVersion()` has all slots absent. -/
structure DeviceVersion where
  bootloader : Option FirmwareVersion := none
  updater : Option FirmwareVersion := none
  application : Option FirmwareVersion := none
deriving DecidableEq, Repr

/-- One decoded tile table entry, as the dict built by
`BandDevice.request_tiles`. -/
structure Tile where
  guid : List Nat
  order : Nat
  theme_color : Nat
  name_length : Nat
  settings_mask : Nat
  name : List Nat
  icon : Option (List Nat)
deriving DecidableEq, Repr

/-- The mutable cached fields of `BandDevice` that the claims touch:
`self.tiles`, `self.serial_number` (kept as the raw bytes of the first
response chunk) and `self.version`.  All start absent (`None`). -/
structure DeviceState where
  tiles : Option (List Tile) := none
  serial_number : Option (List Nat) := none
  version : Option DeviceVersion := none
deriving DecidableEq, Repr

/-- The command channel's read primitive `BandSocket.cargo_read`
(`socket.py`, outside the given sources), modelled per the spec's Command
Channel contract as an oracle: given the command and the expected byte count
it produces a result status and the list of reassembled payload chunks. -/
def CargoReadOracle : Type :=
  Cmd → Nat → Bool × List (List Nat)

/-- Modelled from the spec: a read with expected byte count 0 blocks "until 0
bytes have been reassembled", i.e. completes immediately with no payload
chunks. -/
def CargoReadOracle.WellBehaved (oracle : CargoReadOracle) : Prop :=
  ∀ c : Cmd, (oracle c 0).2 = []

/-- One observable interaction of `device.py` with the cargo channel. -/
inductive CargoEvent where
  | read (c : Cmd) (expected : Nat)
  | write (c : Cmd)
  | writeWithData (c : Cmd) (payload : List Nat)
deriving DecidableEq, Repr

/-- `BandDevice.check_if_oobe_completed`: read 4 bytes of the OOBE-completed
setting; with no data at all the answer is `False`, otherwise the first chunk
is decoded as a 32-bit little-endian flag. -/
def check_if_oobe_completed (oracle : CargoReadOracle) : Except PyError Bool :=
  let data := (oracle .CARGO_SYSTEM_SETTINGS_OOBE_COMPLETED_GET 4).2
  match data with
  | [] => .ok false
  | d0 :: _ => do
    let v ← unpack_u32 d0
    .ok (v ≠ 0)

/-- The byte-count computation of `BandDevice.get_me_tile_image` from the
device's hardware variant (`self.band_type`). -/
def me_tile_byte_count : BandType → Nat
  | .Cargo => 310 * 102 * 2
  | .Envoy => 310 * 128 * 2
  | .Unknown => 0

/-- `BandDevice.get_me_tile_image`: read `me_tile_byte_count` bytes of Me-tile
image and concatenate the chunks.  `band_type` is the variant the `band_type`
property reports (`self.version.band_type`, or `Unknown` when the version is
absent; the derivation of the variant from the version records lives in the
`versions` module, outside the given sources, so the property's value is taken
as the argument). -/
def get_me_tile_image (oracle : CargoReadOracle) (band_type : BandType) :
    List Nat :=
  let byte_count := me_tile_byte_count band_type
  let data := (oracle .READ_ME_TILE_IMAGE byte_count).2
  data.flatten

/-- The record-count prefix plus per-record decoding loop of
`BandDevice.request_tiles` (the `icons=False` path): remaining records to
decode, current offset. -/
def parse_tile_record (tile_data : List Nat) (off : Nat) :
    Except PyError Tile := do
  let guid ← uuid_bytes_le (pySlice tile_data off (off + 16))
  let order ← unpack_u32 (pySlice tile_data (off + 16) (off + 20))
  let theme_color ← unpack_u32 (pySlice tile_data (off + 20) (off + 24))
  let name_length ← unpack_u16 (pySlice tile_data (off + 24) (off + 26))
  let settings_mask ← unpack_u16 (pySlice tile_data (off + 26) (off + 28))
  let name :=
    if name_length ≠ 0 then bytes_to_text (pySlice tile_data (off + 28) (off + 80))
    else []
  .ok ⟨guid, order, theme_color, name_length, settings_mask, name, none⟩

/-- The `while i < tile_count` loop of `BandDevice.request_tiles`, advancing
the offset by 88 per record. -/
def parse_tiles_loop (tile_data : List Nat) (off : Nat) :
    Nat → Except PyError (List Tile)
  | 0 => .ok []
  | n + 1 => do
    let t ← parse_tile_record tile_data off
    let ts ← parse_tiles_loop tile_data (off + 88) n
    .ok (t :: ts)

/-- The decoding part of `BandDevice.request_tiles` (`icons=False`): the first
4 bytes are the tile count, then one 88-byte record per tile. -/
def request_tiles_parse (tile_data : List Nat) : Except PyError (List Tile) := do
  let tile_count ← unpack_u32 (pySlice tile_data 0 4)
  parse_tiles_loop tile_data 4 tile_count

/-- `BandDevice.request_tiles` (`icons=False`): one cargo read of
`88 * max_tiles + 4 = 1324` bytes (`get_max_tile_capacity()` returns 15),
then decode and store the tile list.  Returns the outcome, the new state and
the trace of channel interactions (the read happens whether or not decoding
then raises). -/
def request_tiles (oracle : CargoReadOracle) (st : DeviceState) :
    Except PyError Unit × DeviceState × List CargoEvent :=
  let tiles := (oracle .GET_TILES_NO_IMAGES (88 * 15 + 4)).2
  let tile_data := tiles.flatten
  match request_tiles_parse tile_data with
  | .ok tile_list => (.ok (), { st with tiles := some tile_list },
      [.read .GET_TILES_NO_IMAGES (88 * 15 + 4)])
  | .error e => (.error e, st, [.read .GET_TILES_NO_IMAGES (88 * 15 + 4)])

/-- Python truthiness of the `self.tiles` attribute: `None` and the empty list
are falsy. -/
def tilesTruthy : Option (List Tile) → Bool
  | none => false
  | some ts => ts ≠ []

/-- Python truthiness of the `self.serial_number` attribute: `None` and the
empty string are falsy. -/
def serialTruthy : Option (List Nat) → Bool
  | none => false
  | some s => s ≠ []

/-- `BandDevice.get_tiles`: `if not self.tiles: self.request_tiles()`, then
return `self.tiles`. -/
def get_tiles (oracle : CargoReadOracle) (st : DeviceState) :
    Except PyError (Option (List Tile)) × DeviceState × List CargoEvent :=
  if tilesTruthy st.tiles then (.ok st.tiles, st, [])
  else
    let r := request_tiles oracle st
    (r.1.map (fun _ => r.2.1.tiles), r.2.1, r.2.2)

/-- `BandDevice.get_serial_number`: fetch once when the cached value is falsy;
populate only when the read result status is truthy; return the cached
attribute.  (`number[0]` on an empty chunk list raises `IndexError`; the
UTF-8 decode of the chunk is kept as the raw bytes.) -/
def get_serial_number (oracle : CargoReadOracle) (st : DeviceState) :
    Except PyError (Option (List Nat)) × DeviceState × List CargoEvent :=
  if serialTruthy st.serial_number then (.ok st.serial_number, st, [])
  else
    let result := (oracle .SERIAL_NUMBER_REQUEST 12).1
    let number := (oracle .SERIAL_NUMBER_REQUEST 12).2
    let ev := [CargoEvent.read .SERIAL_NUMBER_REQUEST 12]
    if result then
      match number with
      | [] => (.error .indexError, st, ev)
      | n :: _ =>
        let st2 := { st with serial_number := some n }
        (.ok st2.serial_number, st2, ev)
    else (.ok st.serial_number, st, ev)

/-- The tag dispatch of `BandDevice.get_firmware_version` for one deserialized
record: place it in the slot its `app_name` selects, leaving the version
object unchanged for an unrecognized tag. -/
def classify_fw (v : DeviceVersion) (fw : FirmwareVersion) : DeviceVersion :=
  if fw.app_name = tag1BL then { v with bootloader := some fw }
  else if fw.app_name = tag2UP then { v with updater := some fw }
  else if fw.app_name = tagApp then { v with application := some fw }
  else v

/-- The decoding part of `BandDevice.get_firmware_version`: three 19-byte
records at offsets 0, 19 and 38 of the reassembled payload, each deserialized
and placed by tag into a fresh `DeviceVersion`. -/
def parse_firmware_version (info : List Nat) : DeviceVersion :=
  let v0 : DeviceVersion := {}
  let v1 := classify_fw v0 (FirmwareVersion.deserialize (pySlice info 0 19))
  let v2 := classify_fw v1 (FirmwareVersion.deserialize (pySlice info 19 38))
  classify_fw v2 (FirmwareVersion.deserialize (pySlice info 38 57))

/-- `BandDevice.get_firmware_version`: one cargo read of `19 * 3` bytes, then
decode and store `self.version` (unconditionally: there is no cache check on
this path), returning the decoded version. -/
def get_firmware_version (oracle : CargoReadOracle) (st : DeviceState) :
    DeviceVersion × DeviceState × List CargoEvent :=
  let info := (oracle .CORE_GET_VERSION (19 * 3)).2
  let v := parse_firmware_version info.flatten
  (v, { st with version := some v }, [.read .CORE_GET_VERSION (19 * 3)])

/-- `struct.pack("I"*6, *[int(x) for x in colors])`: requires exactly six
values, each representable in 32 bits, and concatenates their little-endian
encodings; otherwise `struct.error`. -/
def pack_six_u32 (colors : List Nat) : Except PyError (List Nat) :=
  if colors.length = 6 ∧ colors.all (fun c => c < 4294967296) then
    .ok ((colors.map packU32).flatten)
  else .error .structError

/-- `BandDevice.set_theme`: start marker, packed colors, end marker.  The
result statuses of the writes are ignored by the source, so the write oracle
(`resultOf`, the status `cargo_write_with_data` reports) does not influence
the trace; a `struct.error` while packing aborts after the start marker.
Returns the trace of channel interactions and the exception, if any. -/
def set_theme (resultOf : Cmd → List Nat → Bool) (colors : List Nat) :
    List CargoEvent × Option PyError :=
  match pack_six_u32 colors with
  | .ok payload =>
    let _ := resultOf .SET_THEME_COLOR payload
    ([.write .START_STRIP_SYNC_START,
      .writeWithData .SET_THEME_COLOR payload,
      .write .START_STRIP_SYNC_END], none)
  | .error e => ([.write .START_STRIP_SYNC_START], some e)

/-- A service as iterated by `BandDevice.sync`: what its `sync()` call does is
either a normal return of a result value or a raised exception.
(`getattr(service, "sync")()` sits inside the `try`, so an `AttributeError`
for a service without a `sync` method is also a raise seen by the handler.) -/
structure SyncService where
  name : Nat
  syncCall : Except PyError Bool

/-- One console line printed by `BandDevice.sync`. -/
inductive SyncLine where
  | status (name : Nat) (ok : Bool)
  | finished
deriving DecidableEq, Repr

/-- The loop of `BandDevice.sync`: per service, `try` the sync call, on any
`Exception` record `result = False`; print `[OK]`/`[FAIL]` accordingly.  The
`Except` in the return type is where an exception escaping the loop would
surface. -/
def sync_loop : List SyncService → Except PyError (List SyncLine)
  | [] => .ok []
  | s :: rest => do
    let result : Bool :=
      match s.syncCall with
      | .ok b => b
      | .error _ => false
    let lines ← sync_loop rest
    .ok (.status s.name result :: lines)

/-- `BandDevice.sync`: run the loop over all registered services, then print
the completion message. -/
def sync (services : List SyncService) : Except PyError (List SyncLine) := do
  let lines ← sync_loop services
  .ok (lines ++ [SyncLine.finished])

/-- The observable steps of `BandDevice.connect`, in program order. -/
inductive ConnectEvent where
  | cargoConnect
  | cargo (e : CargoEvent)
  | startPushThread
deriving DecidableEq, Repr

/-- `BandDevice.connect`: connect the cargo channel, fetch the firmware
version (a blocking cargo read), then create and start the push-listener
thread.  Returns the device state as it is at the moment the thread starts
(which is also the state `connect` leaves behind) and the ordered event
trace. -/
def connect (oracle : CargoReadOracle) (st : DeviceState) :
    DeviceState × List ConnectEvent :=
  let (_v, st1, tr) := get_firmware_version oracle st
  (st1, .cargoConnect :: tr.map ConnectEvent.cargo ++ [.startPushThread])

/-! ### Helper lemmas about slices and the byte codecs -/

theorem pySlice_shift (l1 l2 : List Nat) (x y a b : Nat)
    (hx : x = l1.length + a) (hy : y = l1.length + b) :
    pySlice (l1 ++ l2) x y = pySlice l2 a b := by
  subst hx hy
  unfold pySlice
  rw [List.take_append, List.drop_append]

theorem pySlice_exact (l1 l2 : List Nat) (b : Nat) (h : l1.length = b) :
    pySlice (l1 ++ l2) 0 b = l1 := by
  unfold pySlice
  rw [List.drop_zero, List.take_left' h]

theorem pySlice_all (l : List Nat) (b : Nat) (h : l.length ≤ b) :
    pySlice l 0 b = l := by
  unfold pySlice
  rw [List.drop_zero, List.take_of_length_le h]

theorem unpack_packU16 (n : Nat) (h : n < 65536) :
    unpack_u16 (packU16 n) = .ok n := by
  simp only [packU16, unpack_u16, Except.ok.injEq]
  omega

theorem unpack_packU32 (n : Nat) (h : n < 4294967296) :
    unpack_u32 (packU32 n) = .ok n := by
  simp only [packU32, unpack_u32, Except.ok.injEq]
  omega

theorem length_packU16 (n : Nat) : (packU16 n).length = 2 := rfl

theorem length_packU32 (n : Nat) : (packU32 n).length = 4 := rfl

theorem length_unitsToBytes (w : List Nat) :
    (unitsToBytes w).length = 2 * w.length := by
  induction w with
  | nil => rfl
  | cons u w ih =>
    simp only [unitsToBytes, List.map_cons, List.flatten_cons,
      List.length_append, length_packU16, List.length_cons] at *
    omega

theorem toUnits_unitsToBytes_append (w z : List Nat)
    (h : ∀ u ∈ w, u < 65536) :
    toUnits (unitsToBytes w ++ z) = w ++ toUnits z := by
  induction w with
  | nil => simp [unitsToBytes]
  | cons u w ih =>
    have hu : u < 65536 := h u (List.mem_cons_self u w)
    have hw : ∀ v ∈ w, v < 65536 := fun v hv => h v (List.mem_cons_of_mem u hv)
    have : unitsToBytes (u :: w) = packU16 u ++ unitsToBytes w := by
      simp [unitsToBytes]
    rw [this, List.append_assoc]
    show toUnits (u % 256 :: u / 256 % 256 :: (unitsToBytes w ++ z)) = _
    rw [toUnits, ih hw]
    have : u % 256 + 256 * (u / 256 % 256) = u := by omega
    rw [this]
    rfl

theorem toUnits_replicate_zero (k : Nat) :
    toUnits (List.replicate (2 * k) 0) = List.replicate k 0 := by
  induction k with
  | zero => rfl
  | succ k ih =>
    have : 2 * (k + 1) = (2 * k) + 1 + 1 := by omega
    rw [this, List.replicate_succ, List.replicate_succ, toUnits, ih]
    rfl

theorem takeWhile_append_all (p : Nat → Bool) (w z : List Nat)
    (h : ∀ x ∈ w, p x = true) :
    (w ++ z).takeWhile p = w ++ z.takeWhile p := by
  induction w with
  | nil => rfl
  | cons x w ih =>
    have hx : p x = true := h x (List.mem_cons_self x w)
    have hw : ∀ y ∈ w, p y = true := fun y hy => h y (List.mem_cons_of_mem x hy)
    simp [List.takeWhile_cons, hx, ih hw]

theorem takeWhile_ne_zero_replicate (k : Nat) :
    (List.replicate k 0).takeWhile (fun u => u ≠ 0) = [] := by
  cases k with
  | zero => rfl
  | succ k => simp [List.replicate_succ, List.takeWhile_cons]

/-- Decoding a zero-padded fixed-width text field recovers the code units. -/
theorem bytes_to_text_padded (w : List Nat) (k : Nat)
    (h : ∀ u ∈ w, u ≠ 0 ∧ u < 65536) :
    bytes_to_text (unitsToBytes w ++ List.replicate (2 * k) 0) = w := by
  unfold bytes_to_text
  rw [toUnits_unitsToBytes_append w _ (fun u hu => (h u hu).2),
    toUnits_replicate_zero,
    takeWhile_append_all _ w _ (by
      intro x hx
      simpa using (h x hx).1),
    takeWhile_ne_zero_replicate, List.append_nil]

/-! ### Claim theorems -/

/-- Claim C1: the claim states that the push-listener loop handles every
2-byte packet-type value, including values outside the known enumeration,
without ever throwing out of the loop.  The code contradicts this: before
the type dispatch, the loop evaluates `PushServicePacketType(packet_type)`
for a debug print, and for a value outside the enumeration (here 5, frame
bytes `05 00`) that constructor raises `ValueError`, which no handler in the
loop catches (only `OSError` around `receive()` is caught), so the listener
terminates instead of surfacing the raw bytes and continuing. -/
theorem C1_unknown_packet_type_raises :
    listen_pushservice_step (σ := Unit) (fun _ => .ok ()) [] [] [5, 0] =
      .error .valueError := rfl

/-- Claim C9: `connect` performs the blocking firmware-version fetch strictly
before it starts the push-listener thread: its event trace is the cargo
connect, then the `CORE_GET_VERSION` read, then the thread start, and the
device state visible at the moment the thread starts already has the
`version` field populated. -/
theorem C9_connect_version_before_listener (oracle : CargoReadOracle)
    (st : DeviceState) :
    (connect oracle st).2 =
      [.cargoConnect, .cargo (.read .CORE_GET_VERSION (19 * 3)),
        .startPushThread] ∧
    (connect oracle st).1.version =
      some (parse_firmware_version
        ((oracle .CORE_GET_VERSION (19 * 3)).2.flatten)) :=
  ⟨rfl, rfl⟩

/-- Claim C10: `sync` isolates failures per registered service: for every
list of registered services, each service's sync call is attempted, a raised
exception is recorded as a failed (`FAIL`) result for that service and
iteration continues, no exception propagates out of `sync`, and the final
completion line is always printed. -/
theorem C10_sync_isolates_failures (services : List SyncService) :
    sync services =
      .ok ((services.map fun s =>
        SyncLine.status s.name
          (match s.syncCall with
           | .ok b => b
           | .error _ => false)) ++
        [SyncLine.finished]) := by
  unfold sync
  have h : sync_loop services =
      .ok (services.map fun s =>
        SyncLine.status s.name
          (match s.syncCall with
           | .ok b => b
           | .error _ => false)) := by
    induction services with
    | nil => rfl
    | cons s rest ih =>
      simp only [sync_loop, ih, List.map_cons]
      rfl
  rw [h]
  rfl

/-- Claim C5: `check_if_oobe_completed` returns `False` both when the read
produces no data at all and when the 4-byte little-endian value is 0; it
returns `True` exactly when the first chunk decodes to a non-zero 32-bit
value; a read failure is never propagated as an error (an empty payload
yields `.ok false`, not an exception). -/
theorem C5_oobe_read_fallback (oracle : CargoReadOracle) :
    ((oracle .CARGO_SYSTEM_SETTINGS_OOBE_COMPLETED_GET 4).2 = [] →
      check_if_oobe_completed oracle = .ok false) ∧
    (∀ d rest v,
      (oracle .CARGO_SYSTEM_SETTINGS_OOBE_COMPLETED_GET 4).2 = d :: rest →
      unpack_u32 d = .ok v →
      check_if_oobe_completed oracle = .ok (v ≠ 0)) := by
  constructor
  · intro h
    simp [check_if_oobe_completed, h]
  · intro d rest v h hv
    simp [check_if_oobe_completed, h, hv]
    rfl

/-- Witness for C5 at concrete oracles: a read failure that produces no data
yields `False`, and a successful read of the non-zero value 7 yields
`True`. -/
theorem C5_oobe_read_fallback_witness :
    check_if_oobe_completed (fun _ _ => (false, [])) = .ok false ∧
    check_if_oobe_completed (fun _ _ => (true, [[7, 0, 0, 0]])) = .ok true := by
  constructor
  · exact (C5_oobe_read_fallback (fun _ _ => (false, []))).1 rfl
  · exact (C5_oobe_read_fallback (fun _ _ => (true, [[7, 0, 0, 0]]))).2
      [7, 0, 0, 0] [] 7 rfl rfl

/-- Claim C8: `get_me_tile_image` computes the expected byte count from the
hardware variant — `310 * 102 * 2` for Cargo, `310 * 128 * 2` for Envoy and
0 for any other variant — and in the zero-expectation case (with the channel
satisfying the spec's contract that a 0-byte read reassembles no chunks) the
operation returns the empty byte buffer rather than raising. -/
theorem C8_me_tile_image_byte_count (oracle : CargoReadOracle)
    (h : oracle.WellBehaved) :
    me_tile_byte_count .Cargo = 310 * 102 * 2 ∧
    me_tile_byte_count .Envoy = 310 * 128 * 2 ∧
    me_tile_byte_count .Unknown = 0 ∧
    get_me_tile_image oracle .Unknown = [] := by
  refine ⟨rfl, rfl, rfl, ?_⟩
  have h0 := h Cmd.READ_ME_TILE_IMAGE
  simp [get_me_tile_image, me_tile_byte_count, h0]

/-- Witness for C8 at a concrete well-behaved oracle. -/
theorem C8_me_tile_image_byte_count_witness :
    me_tile_byte_count .Unknown = 0 ∧
    get_me_tile_image (fun _ _ => (true, [])) .Unknown = [] := by
  have h := C8_me_tile_image_byte_count (fun _ _ => (true, [])) (fun _ => rfl)
  exact ⟨h.2.2.1, h.2.2.2⟩

/-- Claim C4: every invocation of `set_theme` with six 32-bit color values
emits exactly three command-channel sends, in order: the zero-payload start
marker, the six packed 32-bit colors, and the zero-payload end marker — and
the trace does not depend on the result the middle send reports, so both
bracket markers are attempted whether the color-payload send succeeds or
fails. -/
theorem C4_set_theme_three_sends (resultOf : Cmd → List Nat → Bool)
    (colors : List Nat) (h6 : colors.length = 6)
    (h32 : ∀ c ∈ colors, c < 4294967296) :
    set_theme resultOf colors =
      ([.write .START_STRIP_SYNC_START,
        .writeWithData .SET_THEME_COLOR ((colors.map packU32).flatten),
        .write .START_STRIP_SYNC_END], none) := by
  have hp : pack_six_u32 colors = .ok ((colors.map packU32).flatten) := by
    unfold pack_six_u32
    rw [if_pos]
    refine ⟨h6, ?_⟩
    rw [List.all_eq_true]
    intro c hc
    simpa using h32 c hc
  unfold set_theme
  rw [hp]

/-- Witness for C4 at concrete colors, with a middle send that reports
failure: the three bracketing sends still all happen, in order. -/
theorem C4_set_theme_three_sends_witness :
    set_theme (fun _ _ => false) [0, 1, 2, 3, 4, 5] =
      ([.write .START_STRIP_SYNC_START,
        .writeWithData .SET_THEME_COLOR
          (([0, 1, 2, 3, 4, 5].map packU32).flatten),
        .write .START_STRIP_SYNC_END], none) :=
  C4_set_theme_three_sends (fun _ _ => false) [0, 1, 2, 3, 4, 5] rfl
    (by decide)

/-- The registered handlers are scanned linearly; when every handler whose
identifier matches declines, the message passes through unchanged. -/
theorem process_push_all_decline {α : Type} (services : List (Service α))
    (guid command : List Nat) (message : α)
    (h : ∀ s ∈ services, s.guid = guid → s.push guid command message = none) :
    process_push services guid command message = message := by
  induction services with
  | nil => rfl
  | cons s rest ih =>
    have hs := h s (List.mem_cons_self s rest)
    have hrest : ∀ t ∈ rest, t.guid = guid →
        t.push guid command message = none :=
      fun t ht => h t (List.mem_cons_of_mem s ht)
    unfold process_push
    by_cases hg : s.guid = guid
    · rw [if_pos hg, hs hg]
      exact ih hrest
    · rw [if_neg hg]
      exact ih hrest

/-- The first matching handler that returns a replacement stops the scan and
its replacement is the result, whatever handlers follow. -/
theorem process_push_replacement {α : Type} (guid command : List Nat)
    (message : α) (pre : List (Service α)) :
    ∀ (s : Service α) (post : List (Service α)) (m : α),
      (∀ t ∈ pre, t.guid = guid → t.push guid command message = none) →
      s.guid = guid → s.push guid command message = some m →
      process_push (pre ++ s :: post) guid command message = m := by
  induction pre with
  | nil =>
    intro s post m _ hg hpush
    rw [List.nil_append]
    unfold process_push
    rw [if_pos hg, hpush]
  | cons t pre ih =>
    intro s post m hdecl hg hpush
    have ht := hdecl t (List.mem_cons_self t pre)
    have hpre : ∀ u ∈ pre, u.guid = guid →
        u.push guid command message = none :=
      fun u hu => hdecl u (List.mem_cons_of_mem t hu)
    rw [List.cons_append]
    unfold process_push
    by_cases htg : t.guid = guid
    · rw [if_pos htg, ht htg]
      exact ih s post m hpre hg hpush
    · rw [if_neg htg]
      exact ih s post m hpre hg hpush

/-- Claim C6: `process_push` scans the registered handlers linearly by
identifier equality; if a matching handler returns a replacement message,
routing stops at that first replacing match and the replacement is returned;
if no handler matches, or every matching handler declines, the original
message is returned unchanged. -/
theorem C6_process_push_routing {α : Type} (services : List (Service α))
    (guid command : List Nat) (message : α) :
    ((∀ s ∈ services, s.guid = guid → s.push guid command message = none) →
      process_push services guid command message = message) ∧
    (∀ (pre : List (Service α)) (s : Service α) (post : List (Service α))
        (m : α),
      services = pre ++ s :: post →
      (∀ t ∈ pre, t.guid = guid → t.push guid command message = none) →
      s.guid = guid → s.push guid command message = some m →
      process_push services guid command message = m) := by
  constructor
  · exact process_push_all_decline services guid command message
  · intro pre s post m hsv hdecl hg hpush
    rw [hsv]
    exact process_push_replacement guid command message pre s post m hdecl
      hg hpush

/-- Witness for C6 at concrete handler sets: a declining matching handler
followed by a replacing matching handler yields the replacement, and a
non-matching handler set passes the original message through. -/
theorem C6_process_push_routing_witness :
    process_push [⟨[1], fun _ _ _ => none⟩, ⟨[1], fun _ _ _ => some 5⟩]
      [1] [] (0 : Nat) = 5 ∧
    process_push [⟨[2], fun _ _ _ => some 7⟩] [1] [] (0 : Nat) = 0 := by
  constructor
  · exact (C6_process_push_routing
      [⟨[1], fun _ _ _ => none⟩, ⟨[1], fun _ _ _ => some 5⟩] [1] [] 0).2
      [⟨[1], fun _ _ _ => none⟩] ⟨[1], fun _ _ _ => some 5⟩ [] 5 rfl
      (by
        intro t ht hg
        rw [List.mem_singleton] at ht
        subst ht
        rfl)
      rfl rfl
  · exact (C6_process_push_routing [⟨[2], fun _ _ _ => some 7⟩] [1] [] 0).1
      (by
        intro s hs hg
        rw [List.mem_singleton] at hs
        subst hs
        exact absurd hg (by decide))

/-! ### Cache-trace lemmas for the three getters -/

theorem request_tiles_trace (oracle : CargoReadOracle) (st : DeviceState) :
    (request_tiles oracle st).2.2 =
      [.read .GET_TILES_NO_IMAGES (88 * 15 + 4)] := by
  unfold request_tiles
  dsimp only
  split <;> rfl

theorem get_tiles_trace_hit (oracle : CargoReadOracle) (st : DeviceState)
    (h : tilesTruthy st.tiles = true) :
    (get_tiles oracle st).2.2 = [] := by
  simp [get_tiles, h]

theorem get_tiles_trace_miss (oracle : CargoReadOracle) (st : DeviceState)
    (h : tilesTruthy st.tiles = false) :
    (get_tiles oracle st).2.2 =
      [.read .GET_TILES_NO_IMAGES (88 * 15 + 4)] := by
  simp [get_tiles, h, request_tiles_trace]

theorem get_serial_number_trace_hit (oracle : CargoReadOracle)
    (st : DeviceState) (h : serialTruthy st.serial_number = true) :
    (get_serial_number oracle st).2.2 = [] := by
  simp [get_serial_number, h]

theorem get_serial_number_trace_miss (oracle : CargoReadOracle)
    (st : DeviceState) (h : serialTruthy st.serial_number = false) :
    (get_serial_number oracle st).2.2 =
      [.read .SERIAL_NUMBER_REQUEST 12] := by
  simp only [get_serial_number, h, Bool.false_eq_true, if_false]
  split
  · split <;> rfl
  · rfl

theorem get_firmware_version_trace (oracle : CargoReadOracle)
    (st : DeviceState) :
    (get_firmware_version oracle st).2.2 = [.read .CORE_GET_VERSION (19 * 3)] :=
  rfl

/-- Claim C2 counterexample: the firmware-version getter is not memoized.
With the cache initially empty, two successive `get_firmware_version` calls
issue two command-channel reads, not the single read the claim promises for
every cache-backed getter. -/
theorem C2_counterexample :
    ((get_firmware_version (fun _ _ => (true, [])) {}).2.2 ++
      (get_firmware_version (fun _ _ => (true, []))
        (get_firmware_version (fun _ _ => (true, [])) {}).2.1).2.2).length = 2 ∧
    ((get_firmware_version (fun _ _ => (true, [])) {}).2.2 ++
      (get_firmware_version (fun _ _ => (true, []))
        (get_firmware_version (fun _ _ => (true, [])) {}).2.1).2.2).length ≠ 1 :=
  ⟨rfl, by decide⟩

/-- Claim C2 (amended): the tiles and serial-number getters are one-shot
memoized — with the cached field truthy (populated and non-empty) a call
issues no channel read, with it absent a call issues exactly one read, and
two successive calls whose first populates the cache issue exactly one read
in total — whereas `get_firmware_version` is not cache-backed: every call
issues one `CORE_GET_VERSION` read, so two calls issue two. -/
theorem C2_cache_memoization_amended (oracle : CargoReadOracle)
    (st : DeviceState) :
    (tilesTruthy st.tiles = true → (get_tiles oracle st).2.2 = []) ∧
    (st.tiles = none →
      tilesTruthy (get_tiles oracle st).2.1.tiles = true →
      ((get_tiles oracle st).2.2 ++
        (get_tiles oracle (get_tiles oracle st).2.1).2.2).length = 1) ∧
    (serialTruthy st.serial_number = true →
      (get_serial_number oracle st).2.2 = []) ∧
    (st.serial_number = none →
      serialTruthy (get_serial_number oracle st).2.1.serial_number = true →
      ((get_serial_number oracle st).2.2 ++
        (get_serial_number oracle
          (get_serial_number oracle st).2.1).2.2).length = 1) ∧
    ((get_firmware_version oracle st).2.2 ++
      (get_firmware_version oracle
        (get_firmware_version oracle st).2.1).2.2).length = 2 := by
  refine ⟨get_tiles_trace_hit oracle st, ?_, get_serial_number_trace_hit oracle st, ?_, ?_⟩
  · intro h0 h1
    have hf : tilesTruthy st.tiles = false := by rw [h0]; rfl
    rw [List.length_append, get_tiles_trace_miss oracle st hf,
      get_tiles_trace_hit oracle _ h1]
    rfl
  · intro h0 h1
    have hf : serialTruthy st.serial_number = false := by rw [h0]; rfl
    rw [List.length_append, get_serial_number_trace_miss oracle st hf,
      get_serial_number_trace_hit oracle _ h1]
    rfl
  · rw [List.length_append, get_firmware_version_trace,
      get_firmware_version_trace]
    rfl

/-- Witness for the amended C2 at a concrete oracle that answers the tile
read with a one-record tile table and the serial read with a non-empty
chunk: two calls of each memoized getter cost one read, two calls of the
version getter cost two. -/
theorem C2_cache_memoization_amended_witness :
    (let O : CargoReadOracle := fun c _ =>
      match c with
      | .GET_TILES_NO_IMAGES =>
        (true, [packU32 1 ++ (List.replicate 16 7 ++ packU32 1 ++ packU32 2 ++
          packU16 1 ++ packU16 0 ++ (unitsToBytes [65] ++ List.replicate 50 0) ++
          List.replicate 8 0)])
      | .SERIAL_NUMBER_REQUEST => (true, [[65, 66, 67]])
      | _ => (true, []);
    ((get_tiles O {}).2.2 ++
      (get_tiles O (get_tiles O {}).2.1).2.2).length = 1 ∧
    ((get_serial_number O {}).2.2 ++
      (get_serial_number O (get_serial_number O {}).2.1).2.2).length = 1 ∧
    ((get_firmware_version O {}).2.2 ++
      (get_firmware_version O
        (get_firmware_version O {}).2.1).2.2).length = 2) := by
  intro O
  have h := C2_cache_memoization_amended O {}
  exact ⟨h.2.1 rfl (by decide), h.2.2.2.1 rfl (by decide), h.2.2.2.2⟩

/-! ### Firmware-version parsing lemmas -/

theorem deserialize_tagged (tag rest : List Nat) (h : tag.length = 3) :
    FirmwareVersion.deserialize (tag ++ rest) = ⟨tag, rest⟩ := by
  unfold FirmwareVersion.deserialize
  rw [List.take_left' h, List.drop_left' h]

theorem parse_firmware_version_three (r1 r2 r3 : List Nat)
    (h1 : r1.length = 19) (h2 : r2.length = 19) (h3 : r3.length = 19) :
    parse_firmware_version (r1 ++ (r2 ++ r3)) =
      classify_fw
        (classify_fw (classify_fw {} (FirmwareVersion.deserialize r1))
          (FirmwareVersion.deserialize r2))
        (FirmwareVersion.deserialize r3) := by
  have e1 : pySlice (r1 ++ (r2 ++ r3)) 0 19 = r1 := pySlice_exact r1 _ 19 h1
  have e2 : pySlice (r1 ++ (r2 ++ r3)) 19 38 = r2 := by
    rw [pySlice_shift r1 (r2 ++ r3) 19 38 0 19 (by omega) (by omega)]
    exact pySlice_exact r2 r3 19 h2
  have e3 : pySlice (r1 ++ (r2 ++ r3)) 38 57 = r3 := by
    rw [pySlice_shift r1 (r2 ++ r3) 38 57 19 38 (by omega) (by omega)]
    rw [pySlice_shift r2 r3 19 38 0 19 (by omega) (by omega)]
    exact pySlice_all r3 19 (by omega)
  unfold parse_firmware_version
  rw [e1, e2, e3]

/-- Claim C7: given three concatenated 19-byte firmware version records
whose tags are `1BL`, `2UP` and `App`, in any of the six input orders,
`get_firmware_version`'s decoder places the `1BL` record in the bootloader
slot, the `2UP` record in the updater slot and the `App` record in the
application slot. -/
theorem C7_firmware_version_slots (pb pu pa : List Nat)
    (hb : pb.length = 16) (hu : pu.length = 16) (ha : pa.length = 16)
    (rs : List (List Nat))
    (h : rs ∈ [[tag1BL ++ pb, tag2UP ++ pu, tagApp ++ pa],
               [tag1BL ++ pb, tagApp ++ pa, tag2UP ++ pu],
               [tag2UP ++ pu, tag1BL ++ pb, tagApp ++ pa],
               [tag2UP ++ pu, tagApp ++ pa, tag1BL ++ pb],
               [tagApp ++ pa, tag1BL ++ pb, tag2UP ++ pu],
               [tagApp ++ pa, tag2UP ++ pu, tag1BL ++ pb]]) :
    parse_firmware_version rs.flatten =
      { bootloader := some ⟨tag1BL, pb⟩,
        updater := some ⟨tag2UP, pu⟩,
        application := some ⟨tagApp, pa⟩ } := by
  have hlb : (tag1BL ++ pb).length = 19 := by
    rw [List.length_append, hb]
    rfl
  have hlu : (tag2UP ++ pu).length = 19 := by
    rw [List.length_append, hu]
    rfl
  have hla : (tagApp ++ pa).length = 19 := by
    rw [List.length_append, ha]
    rfl
  have cB : ∀ v : DeviceVersion, classify_fw v ⟨tag1BL, pb⟩ =
      { v with bootloader := some ⟨tag1BL, pb⟩ } := by
    intro v
    unfold classify_fw
    rw [if_pos rfl]
  have cU : ∀ v : DeviceVersion, classify_fw v ⟨tag2UP, pu⟩ =
      { v with updater := some ⟨tag2UP, pu⟩ } := by
    intro v
    unfold classify_fw
    rw [if_neg (show tag2UP ≠ tag1BL by decide), if_pos rfl]
  have cA : ∀ v : DeviceVersion, classify_fw v ⟨tagApp, pa⟩ =
      { v with application := some ⟨tagApp, pa⟩ } := by
    intro v
    unfold classify_fw
    rw [if_neg (show tagApp ≠ tag1BL by decide),
      if_neg (show tagApp ≠ tag2UP by decide), if_pos rfl]
  simp only [List.mem_cons, List.mem_singleton, List.not_mem_nil, or_false] at h
  rcases h with h | h | h | h | h | h <;>
    (subst h
     simp only [List.flatten_cons, List.flatten_nil, List.append_nil]) <;>
    [rw [parse_firmware_version_three _ _ _ hlb hlu hla];
     rw [parse_firmware_version_three _ _ _ hlb hla hlu];
     rw [parse_firmware_version_three _ _ _ hlu hlb hla];
     rw [parse_firmware_version_three _ _ _ hlu hla hlb];
     rw [parse_firmware_version_three _ _ _ hla hlb hlu];
     rw [parse_firmware_version_three _ _ _ hla hlu hlb]] <;>
    rw [deserialize_tagged _ _ (by rfl), deserialize_tagged _ _ (by rfl),
      deserialize_tagged _ _ (by rfl)] <;>
    simp [cB, cU, cA]

/-- Witness for C7 at concrete records (`2UP`, `App`, `1BL` input order with
zero version fields): each record lands in its named slot. -/
theorem C7_firmware_version_slots_witness :
    parse_firmware_version
      [tag2UP ++ List.replicate 16 0, tagApp ++ List.replicate 16 0,
        tag1BL ++ List.replicate 16 0].flatten =
      { bootloader := some ⟨tag1BL, List.replicate 16 0⟩,
        updater := some ⟨tag2UP, List.replicate 16 0⟩,
        application := some ⟨tagApp, List.replicate 16 0⟩ } :=
  C7_firmware_version_slots (List.replicate 16 0) (List.replicate 16 0)
    (List.replicate 16 0) rfl rfl rfl _ (by simp)

/-! ### Tile-table parsing lemmas -/

theorem parse_tiles_loop_zero (d : List Nat) (off : Nat) :
    parse_tiles_loop d off 0 = .ok [] := rfl

theorem parse_tiles_loop_succ (d : List Nat) (off n : Nat) :
    parse_tiles_loop d off (n + 1) = (do
      let t ← parse_tile_record d off
      let ts ← parse_tiles_loop d (off + 88) n
      .ok (t :: ts)) := rfl

/-- Parsing one tile record whose bytes sit at offset `off` of the buffer:
the 16-byte GUID, 32-bit order, 32-bit theme color, 16-bit name length,
16-bit settings mask and 52-byte text field come back field by field. -/
theorem parse_tile_record_shape (data pre g nb tail : List Nat)
    (off o c nl m : Nat)
    (hdata : data = pre ++ (g ++ (packU32 o ++ (packU32 c ++ (packU16 nl ++
      (packU16 m ++ (nb ++ tail)))))))
    (hoff : off = pre.length)
    (hg : g.length = 16) (ho : o < 4294967296) (hc : c < 4294967296)
    (hnl : nl < 65536) (hm : m < 65536) (hnb : nb.length = 52)
    (hnl0 : nl ≠ 0) :
    parse_tile_record data off =
      .ok ⟨g, o, c, nl, m, bytes_to_text nb, none⟩ := by
  subst hdata hoff
  have l32o : (packU32 o).length = 4 := rfl
  have l32c : (packU32 c).length = 4 := rfl
  have l16nl : (packU16 nl).length = 2 := rfl
  have l16m : (packU16 m).length = 2 := rfl
  have eGuid : pySlice (pre ++ (g ++ (packU32 o ++ (packU32 c ++ (packU16 nl ++
      (packU16 m ++ (nb ++ tail))))))) pre.length (pre.length + 16) = g := by
    rw [pySlice_shift pre _ pre.length (pre.length + 16) 0 16 (by omega)
      (by omega)]
    exact pySlice_exact g _ 16 hg
  have eOrder : pySlice (pre ++ (g ++ (packU32 o ++ (packU32 c ++ (packU16 nl ++
      (packU16 m ++ (nb ++ tail))))))) (pre.length + 16) (pre.length + 20) =
      packU32 o := by
    rw [pySlice_shift pre _ (pre.length + 16) (pre.length + 20) 16 20
      (by omega) (by omega)]
    rw [pySlice_shift g _ 16 20 0 4 (by omega) (by omega)]
    exact pySlice_exact (packU32 o) _ 4 l32o
  have eColor : pySlice (pre ++ (g ++ (packU32 o ++ (packU32 c ++ (packU16 nl ++
      (packU16 m ++ (nb ++ tail))))))) (pre.length + 20) (pre.length + 24) =
      packU32 c := by
    rw [pySlice_shift pre _ (pre.length + 20) (pre.length + 24) 20 24
      (by omega) (by omega)]
    rw [pySlice_shift g _ 20 24 4 8 (by omega) (by omega)]
    rw [pySlice_shift (packU32 o) _ 4 8 0 4 (by omega) (by omega)]
    exact pySlice_exact (packU32 c) _ 4 l32c
  have eNl : pySlice (pre ++ (g ++ (packU32 o ++ (packU32 c ++ (packU16 nl ++
      (packU16 m ++ (nb ++ tail))))))) (pre.length + 24) (pre.length + 26) =
      packU16 nl := by
    rw [pySlice_shift pre _ (pre.length + 24) (pre.length + 26) 24 26
      (by omega) (by omega)]
    rw [pySlice_shift g _ 24 26 8 10 (by omega) (by omega)]
    rw [pySlice_shift (packU32 o) _ 8 10 4 6 (by omega) (by omega)]
    rw [pySlice_shift (packU32 c) _ 4 6 0 2 (by omega) (by omega)]
    exact pySlice_exact (packU16 nl) _ 2 l16nl
  have eM : pySlice (pre ++ (g ++ (packU32 o ++ (packU32 c ++ (packU16 nl ++
      (packU16 m ++ (nb ++ tail))))))) (pre.length + 26) (pre.length + 28) =
      packU16 m := by
    rw [pySlice_shift pre _ (pre.length + 26) (pre.length + 28) 26 28
      (by omega) (by omega)]
    rw [pySlice_shift g _ 26 28 10 12 (by omega) (by omega)]
    rw [pySlice_shift (packU32 o) _ 10 12 6 8 (by omega) (by omega)]
    rw [pySlice_shift (packU32 c) _ 6 8 2 4 (by omega) (by omega)]
    rw [pySlice_shift (packU16 nl) _ 2 4 0 2 (by omega) (by omega)]
    exact pySlice_exact (packU16 m) _ 2 l16m
  have eName : pySlice (pre ++ (g ++ (packU32 o ++ (packU32 c ++ (packU16 nl ++
      (packU16 m ++ (nb ++ tail))))))) (pre.length + 28) (pre.length + 80) =
      nb := by
    rw [pySlice_shift pre _ (pre.length + 28) (pre.length + 80) 28 80
      (by omega) (by omega)]
    rw [pySlice_shift g _ 28 80 12 64 (by omega) (by omega)]
    rw [pySlice_shift (packU32 o) _ 12 64 8 60 (by omega) (by omega)]
    rw [pySlice_shift (packU32 c) _ 8 60 4 56 (by omega) (by omega)]
    rw [pySlice_shift (packU16 nl) _ 4 56 2 54 (by omega) (by omega)]
    rw [pySlice_shift (packU16 m) _ 2 54 0 52 (by omega) (by omega)]
    exact pySlice_exact nb tail 52 hnb
  have eUuid : uuid_bytes_le g = .ok g := by
    unfold uuid_bytes_le
    rw [if_pos hg]
  unfold parse_tile_record
  rw [eGuid, eOrder, eColor, eNl, eM, eName, eUuid,
    unpack_packU32 o ho, unpack_packU32 c hc,
    unpack_packU16 nl hnl, unpack_packU16 m hm]
  show Except.ok
      (⟨g, o, c, nl, m, if nl ≠ 0 then bytes_to_text nb else [], none⟩ : Tile) =
    Except.ok (⟨g, o, c, nl, m, bytes_to_text nb, none⟩ : Tile)
  rw [if_pos hnl0]

/-- Claim C3 (amended): an 88-byte tile-table record carries the 16-byte
GUID, 4-byte order, 4-byte theme color, 2-byte name length and 2-byte
settings mask followed by a text field occupying the remaining 60 bytes, of
which the decoder reads the first 52 (the listed fields alone cover only 80
of the 88 bytes; 8 trailing bytes are ignored).  For any buffer holding a
count of 2 followed by two such well-formed 88-byte records,
`request_tiles`' decoder yields an ordered sequence of exactly 2 tiles whose
GUID, order, color and name match the input bytes exactly. -/
theorem C3_tile_table_decode_amended
    (g1 g2 w1 w2 pad1 pad2 : List Nat) (o1 o2 c1 c2 nl1 nl2 m1 m2 : Nat)
    (hg1 : g1.length = 16) (hg2 : g2.length = 16)
    (ho1 : o1 < 4294967296) (ho2 : o2 < 4294967296)
    (hc1 : c1 < 4294967296) (hc2 : c2 < 4294967296)
    (hnl1 : nl1 < 65536) (hnl2 : nl2 < 65536)
    (hnl1z : nl1 ≠ 0) (hnl2z : nl2 ≠ 0)
    (hm1 : m1 < 65536) (hm2 : m2 < 65536)
    (hw1 : ∀ u ∈ w1, u ≠ 0 ∧ u < 65536) (hw2 : ∀ u ∈ w2, u ≠ 0 ∧ u < 65536)
    (hl1 : w1.length ≤ 26) (hl2 : w2.length ≤ 26)
    (hp1 : pad1.length = 8) (hp2 : pad2.length = 8) :
    request_tiles_parse
      (packU32 2 ++
        ((g1 ++ (packU32 o1 ++ (packU32 c1 ++ (packU16 nl1 ++ (packU16 m1 ++
          ((unitsToBytes w1 ++ List.replicate (52 - 2 * w1.length) 0) ++
            pad1)))))) ++
         (g2 ++ (packU32 o2 ++ (packU32 c2 ++ (packU16 nl2 ++ (packU16 m2 ++
          ((unitsToBytes w2 ++ List.replicate (52 - 2 * w2.length) 0) ++
            pad2)))))))) =
      .ok [⟨g1, o1, c1, nl1, m1, w1, none⟩,
        ⟨g2, o2, c2, nl2, m2, w2, none⟩] := by
  set nb1 := unitsToBytes w1 ++ List.replicate (52 - 2 * w1.length) 0
    with hnb1def
  set nb2 := unitsToBytes w2 ++ List.replicate (52 - 2 * w2.length) 0
    with hnb2def
  have hnb1 : nb1.length = 52 := by
    rw [hnb1def, List.length_append, length_unitsToBytes,
      List.length_replicate]
    omega
  have hnb2 : nb2.length = 52 := by
    rw [hnb2def, List.length_append, length_unitsToBytes,
      List.length_replicate]
    omega
  set rec1 := g1 ++ (packU32 o1 ++ (packU32 c1 ++ (packU16 nl1 ++
    (packU16 m1 ++ (nb1 ++ pad1))))) with hrec1def
  set rec2 := g2 ++ (packU32 o2 ++ (packU32 c2 ++ (packU16 nl2 ++
    (packU16 m2 ++ (nb2 ++ pad2))))) with hrec2def
  set buf := packU32 2 ++ (rec1 ++ rec2) with hbufdef
  have hrl1 : rec1.length = 88 := by
    rw [hrec1def]
    simp only [List.length_append, length_packU32, length_packU16, hnb1]
    omega
  have hcount : pySlice buf 0 4 = packU32 2 :=
    pySlice_exact (packU32 2) (rec1 ++ rec2) 4 rfl
  have h1 : parse_tile_record buf 4 =
      .ok ⟨g1, o1, c1, nl1, m1, bytes_to_text nb1, none⟩ :=
    parse_tile_record_shape buf (packU32 2) g1 nb1 (pad1 ++ rec2) 4 o1 c1
      nl1 m1
      (by rw [hbufdef, hrec1def]; simp [List.append_assoc])
      rfl hg1 ho1 hc1 hnl1 hm1 hnb1 hnl1z
  have h2 : parse_tile_record buf (4 + 88) =
      .ok ⟨g2, o2, c2, nl2, m2, bytes_to_text nb2, none⟩ :=
    parse_tile_record_shape buf (packU32 2 ++ rec1) g2 nb2 pad2 (4 + 88) o2
      c2 nl2 m2
      (by rw [hbufdef, hrec2def]; simp [List.append_assoc])
      (by rw [List.length_append, hrl1]; rfl) hg2 ho2 hc2 hnl2 hm2 hnb2
      hnl2z
  have hn1 : bytes_to_text nb1 = w1 := by
    rw [hnb1def, show 52 - 2 * w1.length = 2 * (26 - w1.length) by omega]
    exact bytes_to_text_padded w1 (26 - w1.length) hw1
  have hn2 : bytes_to_text nb2 = w2 := by
    rw [hnb2def, show 52 - 2 * w2.length = 2 * (26 - w2.length) by omega]
    exact bytes_to_text_padded w2 (26 - w2.length) hw2
  unfold request_tiles_parse
  rw [hcount, unpack_packU32 2 (by omega)]
  show parse_tiles_loop buf 4 2 =
    .ok [⟨g1, o1, c1, nl1, m1, w1, none⟩, ⟨g2, o2, c2, nl2, m2, w2, none⟩]
  rw [show (2 : Nat) = 1 + 1 from rfl, parse_tiles_loop_succ,
    show (1 : Nat) = 0 + 1 from rfl, parse_tiles_loop_succ,
    parse_tiles_loop_zero, h1, h2]
  show Except.ok [(⟨g1, o1, c1, nl1, m1, bytes_to_text nb1, none⟩ : Tile),
      ⟨g2, o2, c2, nl2, m2, bytes_to_text nb2, none⟩] =
    Except.ok [(⟨g1, o1, c1, nl1, m1, w1, none⟩ : Tile),
      ⟨g2, o2, c2, nl2, m2, w2, none⟩]
  rw [hn1, hn2]

/-- Claim C3 counterexample: the claim's record layout — 16-byte GUID +
4-byte order + 4-byte theme color + 2-byte name length + 2-byte settings
mask + 52-byte text field — totals 80 bytes, not the 88 the claim asserts,
and the decoder advances 88 bytes per record.  A buffer holding a count of 2
followed by two records consisting of exactly the claimed fields therefore
misaligns the second record: its decoded GUID, order and color do not match
the input bytes. -/
theorem C3_tile_table_decode_counterexample :
    ¬ request_tiles_parse
      (packU32 2 ++
        ([1, 2, 3, 4, 5, 6, 7, 8, 9, 10, 11, 12, 13, 14, 15, 16] ++
          packU32 1 ++ packU32 2 ++ packU16 1 ++ packU16 3 ++
          (unitsToBytes [65] ++ List.replicate 50 0)) ++
        ([21, 22, 23, 24, 25, 26, 27, 28, 29, 30, 31, 32, 33, 34, 35, 36] ++
          packU32 5 ++ packU32 6 ++ packU16 1 ++ packU16 7 ++
          (unitsToBytes [66] ++ List.replicate 50 0))) =
      .ok [⟨[1, 2, 3, 4, 5, 6, 7, 8, 9, 10, 11, 12, 13, 14, 15, 16],
            1, 2, 1, 3, [65], none⟩,
        ⟨[21, 22, 23, 24, 25, 26, 27, 28, 29, 30, 31, 32, 33, 34, 35, 36],
            5, 6, 1, 7, [66], none⟩] := by
  intro h
  have hact : request_tiles_parse
      (packU32 2 ++
        ([1, 2, 3, 4, 5, 6, 7, 8, 9, 10, 11, 12, 13, 14, 15, 16] ++
          packU32 1 ++ packU32 2 ++ packU16 1 ++ packU16 3 ++
          (unitsToBytes [65] ++ List.replicate 50 0)) ++
        ([21, 22, 23, 24, 25, 26, 27, 28, 29, 30, 31, 32, 33, 34, 35, 36] ++
          packU32 5 ++ packU32 6 ++ packU16 1 ++ packU16 7 ++
          (unitsToBytes [66] ++ List.replicate 50 0))) =
      .ok [⟨[1, 2, 3, 4, 5, 6, 7, 8, 9, 10, 11, 12, 13, 14, 15, 16],
            1, 2, 1, 3, [65], none⟩,
        ⟨[29, 30, 31, 32, 33, 34, 35, 36, 5, 0, 0, 0, 6, 0, 0, 0],
            458753, 66, 0, 0, [], none⟩] := rfl
  have h2 := Except.ok.inj (hact.symm.trans h)
  exact absurd h2 (by decide)

/-- Witness for the amended C3 at a concrete buffer: a count of 2 followed
by two 88-byte records (fields plus 8 trailing bytes) decodes to exactly the
two input tiles. -/
theorem C3_tile_table_decode_amended_witness :
    request_tiles_parse
      (packU32 2 ++
        (([1, 2, 3, 4, 5, 6, 7, 8, 9, 10, 11, 12, 13, 14, 15, 16] ++
          (packU32 1 ++ (packU32 2 ++ (packU16 1 ++ (packU16 3 ++
          ((unitsToBytes [65] ++ List.replicate 50 0) ++
            List.replicate 8 0)))))) ++
         ([21, 22, 23, 24, 25, 26, 27, 28, 29, 30, 31, 32, 33, 34, 35, 36] ++
          (packU32 5 ++ (packU32 6 ++ (packU16 1 ++ (packU16 7 ++
          ((unitsToBytes [66] ++ List.replicate 50 0) ++
            List.replicate 8 0)))))))) =
      .ok [⟨[1, 2, 3, 4, 5, 6, 7, 8, 9, 10, 11, 12, 13, 14, 15, 16],
            1, 2, 1, 3, [65], none⟩,
        ⟨[21, 22, 23, 24, 25, 26, 27, 28, 29, 30, 31, 32, 33, 34, 35, 36],
            5, 6, 1, 7, [66], none⟩] :=
  C3_tile_table_decode_amended
    [1, 2, 3, 4, 5, 6, 7, 8, 9, 10, 11, 12, 13, 14, 15, 16]
    [21, 22, 23, 24, 25, 26, 27, 28, 29, 30, 31, 32, 33, 34, 35, 36]
    [65] [66] (List.replicate 8 0) (List.replicate 8 0)
    1 5 2 6 1 1 3 7 rfl rfl (by omega) (by omega) (by omega) (by omega)
    (by omega) (by omega) (by omega) (by omega) (by omega) (by omega)
    (by decide) (by decide) (by decide) (by decide) rfl rfl

end LibBand
